import Mathlib

/-!
Verification of the konsul `Instancer` (client-side round-robin load balancer
over Consul service instances).

The Go source is shallowly embedded: the `Instancer` struct becomes a Lean
structure holding the fields the observable behaviour depends on
(`instances`, `listeners`, `counter`, `stopped`); the mutex, logger, Consul
client and watch plan are concurrency/IO plumbing and are elided, with
`plan.IsStopped()` modelled by the `stopped` flag.  Panics are modelled as
`Except.error`, the 64-bit counter as a `Nat` reduced modulo `2 ^ 64`
wherever the Go code overflows, and listener callbacks as emitted
`Notification` records (an `InstanceListener` is identified by a `Nat`
handle).
-/

namespace Konsul

/-- The uint64 modulus: Go's `uint64` arithmetic wraps at `2 ^ 64`. -/
def u64 : Nat := 2 ^ 64

/-- From `api.Node`: the node-level address of a catalog entry. -/
structure Node where
  address : String
deriving Repr, DecidableEq

/-- From `api.AgentService`: the service-level address and port. -/
structure AgentService where
  address : String
  port : Int
deriving Repr, DecidableEq

/-- From `api.ServiceEntry`: one instance descriptor delivered by the watch. -/
structure ServiceEntry where
  node : Node
  service : AgentService
deriving Repr, DecidableEq

/-- The `data any` argument of `Instancer.handler`: either the expected
`[]*api.ServiceEntry` batch or a value of any other dynamic type (carrying
its type name, as the code only formats `%T` of it). -/
inductive HandlerData where
  | serviceEntries (entries : List ServiceEntry)
  | unexpected (typeName : String)
deriving Repr, DecidableEq

/-- The observable state of the Go `Instancer` struct: cached instances,
registered listeners (by handle), the selection counter, and whether the
watch plan is stopped (`plan.IsStopped()`). -/
structure Instancer where
  instances : List String
  listeners : List Nat
  counter : Nat
  stopped : Bool
deriving Repr, DecidableEq

/-- A recorded invocation of `listener.OnChange(payload)`. -/
structure Notification where
  listener : Nat
  payload : List String
deriving Repr, DecidableEq

/-- The panic message used by `Instance`, `Instances` and `RegisterListener`
when the watch plan is stopped. -/
def closedMsg : String := "Instancer is closed/stopped"

/-- Method `Instancer.Instance`: round-robin selection.  Panic (modelled as
`Except.error`) when stopped; `("", false)` on an empty snapshot; otherwise
`old := atomic.AddUint64(&i.counter, 1) - 1` (uint64 arithmetic, so the
post-increment value is stored and `old` is the pre-increment value modulo
`2 ^ 64`) and the instance at `old % len` is returned. -/
def Instancer.Instance (i : Instancer) : Except String ((String × Bool) × Instancer) :=
  if i.stopped then .error closedMsg
  else if h : i.instances.length = 0 then .ok (("", false), i)
  else
    let newCounter := (i.counter + 1) % u64
    let old := (newCounter + u64 - 1) % u64
    let idx := old % i.instances.length
    have hlt : idx < i.instances.length := Nat.mod_lt _ (Nat.pos_of_ne_zero h)
    .ok ((i.instances.get ⟨idx, hlt⟩, true), { i with counter := newCounter })

/-- Method `Instancer.Instances`: defensive copy of the snapshot (copying is
the identity in the pure model); panics when stopped. -/
def Instancer.Instances (i : Instancer) : Except String (List String) :=
  if i.stopped then .error closedMsg
  else .ok i.instances

/-- Method `Instancer.RegisterListener`: panics when stopped, otherwise
appends the listener and synchronously notifies it (and only it) with a copy
of the current snapshot. -/
def Instancer.RegisterListener (i : Instancer) (l : Nat) :
    Except String (Instancer × List Notification) :=
  if i.stopped then .error closedMsg
  else
    let i' := { i with listeners := i.listeners ++ [l] }
    .ok (i', [⟨l, i'.instances⟩])

/-- Per-entry endpoint construction, exactly as the loop body of
`Instancer.handler`: start from the node address, override with the service
address when it is non-empty, and append `":" + port`
(`fmt.Sprintf("%s:%d", addr, entry.Service.Port)`). -/
def endpointOf (entry : ServiceEntry) : String :=
  let addr := entry.node.address
  let addr := if entry.service.address != "" then entry.service.address else addr
  addr ++ ":" ++ toString entry.service.port

/-- Method `Instancer.handler`: on a `[]*api.ServiceEntry` batch, rebuild the
snapshot in delivered order and notify every registered listener (when there
is at least one) with a copy of the new snapshot; on any other payload type,
only log — state untouched, nobody notified. -/
def Instancer.handler (i : Instancer) (data : HandlerData) : Instancer × List Notification :=
  match data with
  | .serviceEntries d =>
    let instances := d.map endpointOf
    let i' := { i with instances := instances }
    if i'.listeners.length > 0 then
      (i', i'.listeners.map (fun l => ⟨l, i'.instances⟩))
    else
      (i', [])
  | .unexpected _ => (i, [])

/-- Method `Instancer.Close`: stops the plan and clears instances and
listeners. -/
def Instancer.Close (i : Instancer) : Instancer :=
  { i with stopped := true, instances := [], listeners := [] }

/-- The `InstancerConfig` struct; the `*api.Client` pointer is modelled as
`Option Unit` (present or nil) and the logger is elided. -/
structure InstancerConfig where
  client : Option Unit
  service : String
  tag : String
  passingOnly : Bool
  allowStale : Bool
deriving Repr, DecidableEq

/-- Go's `strings.TrimSpace`: drop leading and trailing whitespace. -/
def trimSpace (s : String) : String :=
  String.mk (((s.data.dropWhile Char.isWhitespace).reverse.dropWhile Char.isWhitespace).reverse)

/-- Method `InstancerConfig.validate`: panics (modelled as `Except.error`) on
a nil client or a service name that is empty after trimming whitespace. -/
def InstancerConfig.validate (ic : InstancerConfig) : Except String Unit :=
  if ic.client = none then
    .error "cannot provide nil consul api.Client, illegal use of api"
  else if trimSpace ic.service = "" then
    .error "a consul service must be specified to load balance/monitor, illegal use of api"
  else .ok ()

/-- The three ways `NewInstancer` can come back to its caller: a panic (from
`validate`), a `(nil, err)` return (watch-plan parse failure), or a
constructed `Instancer`. -/
inductive CtorResult where
  | panics (msg : String)
  | fails (err : String)
  | ok (inst : Instancer)
deriving Repr, DecidableEq

/-- The freshly constructed state built inside `NewInstancer`: empty
snapshot, no listeners, counter zero, plan running. -/
def initialInstancer : Instancer :=
  { instances := [], listeners := [], counter := 0, stopped := false }

/-- Function `NewInstancer`: validates the configuration (panicking on
misuse), then builds the watch plan.  `watch.Parse` is an external library
call; its outcome is passed in as `parseResult`.  On parse failure the
constructor returns `nil` plus an error naming the service; otherwise the
initial `Instancer` is returned. -/
def NewInstancer (config : InstancerConfig) (parseResult : Except String Unit) : CtorResult :=
  match config.validate with
  | .error m => .panics m
  | .ok _ =>
    match parseResult with
    | .error err =>
      .fails ("error creating watch plan for service " ++ config.service ++ ": " ++ err)
    | .ok _ => .ok initialInstancer

/-- Deliver a sequence of watch events to the handler, threading the state
(notifications are discarded; each handler invocation runs to completion
before the next, as the watch feed delivers events serially). -/
def Instancer.runEvents (i : Instancer) (events : List HandlerData) : Instancer :=
  events.foldl (fun s e => (s.handler e).1) i

/-- Runs `n` consecutive calls to `Instance`, collecting the returned
endpoint strings and the final state.  A panic stops the run. -/
def Instancer.instanceRun : Nat → Instancer → List String × Instancer
  | 0, i => ([], i)
  | n + 1, i =>
    match i.Instance with
    | .error _ => ([], i)
    | .ok ((e, _), i') =>
      let rest := Instancer.instanceRun n i'
      (e :: rest.1, rest.2)

/-- Spec-side endpoint mapping, following the specification's words: "prefer
the service-level address if present and non-empty, otherwise fall back to
the node-level address; combine with the service port as `address:port`". -/
def specEndpoint (e : ServiceEntry) : String :=
  (if e.service.address = "" then e.node.address else e.service.address)
    ++ ":" ++ toString e.service.port

/-- A not-stopped state with an empty snapshot. -/
def emptyInst : Instancer := ⟨[], [], 0, false⟩

/-- A not-stopped state with one instance. -/
def oneInst : Instancer := ⟨["a"], [], 0, false⟩

/-- A not-stopped state with three distinct instances and the cursor at 4. -/
def threeInst : Instancer := ⟨["a", "b", "c"], [], 4, false⟩

/-- A not-stopped state with three distinct instances and the cursor at the
largest uint64 value, one increment away from wrapping. -/
def wrapInst : Instancer := ⟨["a", "b", "c"], [], u64 - 1, false⟩

/-- A valid configuration, used to exercise the watch-parse failure path. -/
def badParseConfig : InstancerConfig := ⟨some (), "svc", "", false, false⟩

/-- A configuration whose service name is a single space. -/
def wsConfig : InstancerConfig := ⟨some (), " ", "", false, false⟩

lemma uint64_old (c : Nat) : ((c + 1) % u64 + u64 - 1) % u64 = c % u64 := by
  show ((c + 1) % 2 ^ 64 + 2 ^ 64 - 1) % 2 ^ 64 = c % 2 ^ 64
  omega

lemma u64_pos : 0 < u64 := by decide

lemma Instance_eq (i : Instancer) (h1 : i.stopped = false) (h2 : i.instances.length ≠ 0)
    (h3 : i.counter < u64) :
    i.Instance = .ok ((i.instances.getD (i.counter % i.instances.length) "", true),
                      { i with counter := (i.counter + 1) % u64 }) := by
  have hpos : 0 < i.instances.length := Nat.pos_of_ne_zero h2
  have hidx : ((i.counter + 1) % u64 + u64 - 1) % u64 % i.instances.length
      = i.counter % i.instances.length := by
    rw [uint64_old, Nat.mod_eq_of_lt h3]
  simp only [Instancer.Instance, h1, Bool.false_eq_true, if_false, dif_neg h2,
    List.get_eq_getElem, hidx]
  rw [List.getD_eq_getElem?_getD, List.getElem?_eq_getElem (Nat.mod_lt _ hpos)]
  rfl

lemma Instance_empty (i : Instancer) (h1 : i.stopped = false) (h2 : i.instances.length = 0) :
    i.Instance = .ok (("", false), i) := by
  simp only [Instancer.Instance, h1, Bool.false_eq_true, if_false, dif_pos h2]

lemma handler_entries_eq (i : Instancer) (d : List ServiceEntry) :
    i.handler (HandlerData.serviceEntries d)
      = ({ i with instances := d.map endpointOf },
         i.listeners.map (fun l => ⟨l, d.map endpointOf⟩)) := by
  unfold Instancer.handler
  by_cases h : i.listeners.length > 0
  · simp [h]
  · have hnil : i.listeners = [] := List.length_eq_zero.mp (by omega)
    simp [hnil]

lemma endpointOf_eq_spec (e : ServiceEntry) : endpointOf e = specEndpoint e := by
  unfold endpointOf specEndpoint
  by_cases h : e.service.address = "" <;> simp [h]

lemma getLastD_cons_eq (a d : List String) (l : List (List String)) :
    (a :: l).getLastD d = l.getLastD a := by
  cases l <;> simp [List.getLastD]

lemma runEvents_entries (ds : List (List ServiceEntry)) : ∀ (i : Instancer),
    i.runEvents (ds.map HandlerData.serviceEntries)
      = { i with instances := (ds.map (fun d => d.map endpointOf)).getLastD i.instances } := by
  induction ds with
  | nil => intro i; rfl
  | cons d ds ih =>
    intro i
    have step : i.runEvents (HandlerData.serviceEntries d :: ds.map HandlerData.serviceEntries)
        = (i.handler (HandlerData.serviceEntries d)).1.runEvents
            (ds.map HandlerData.serviceEntries) := rfl
    rw [List.map_cons, step, handler_entries_eq]
    dsimp only
    rw [ih]
    rw [List.map_cons, getLastD_cons_eq]

lemma range_mod_eq_rotate (c N : Nat) :
    (List.range N).map (fun k => (c + k) % N) = (List.range N).rotate (c % N) := by
  apply List.ext_getElem
  · simp
  · intro n h1 h2
    rw [List.getElem_map, List.getElem_range, List.getElem_rotate, List.getElem_range]
    have hn : n < N := by simpa using h1
    conv_lhs => rw [Nat.add_mod]
    rw [Nat.mod_eq_of_lt hn, Nat.add_comm]
    congr 1
    simp

lemma run_perm (l : List String) (c : Nat) :
    ((List.range l.length).map (fun k => l.getD ((c + k) % l.length) "")).Perm l := by
  have h1 : (List.range l.length).map (fun k => l.getD ((c + k) % l.length) "")
      = ((List.range l.length).map (fun k => (c + k) % l.length)).map (fun j => l.getD j "") := by
    rw [List.map_map]; rfl
  rw [h1, range_mod_eq_rotate c _]
  refine ((List.rotate_perm _ _).map _).trans ?_
  have h3 : (List.range l.length).map (fun j => l.getD j "") = l := by
    apply List.ext_getElem
    · simp
    · intro n hn1 hn2
      rw [List.getElem_map, List.getElem_range, List.getD_eq_getElem?_getD,
        List.getElem?_eq_getElem hn2]
      rfl
  rw [h3]

lemma instanceRun_stable : ∀ (n : Nat) (i : Instancer), i.stopped = false →
    i.instances.length ≠ 0 → i.counter < u64 → i.counter + n ≤ u64 →
    Instancer.instanceRun n i
      = ((List.range n).map (fun k => i.instances.getD ((i.counter + k) % i.instances.length) ""),
         { i with counter := (i.counter + n) % u64 }) := by
  intro n
  induction n with
  | zero =>
    intro i h1 h2 h3 _
    simp [Instancer.instanceRun, Nat.mod_eq_of_lt h3]
  | succ n ih =>
    intro i h1 h2 h3 h4
    have hunf : Instancer.instanceRun (n + 1) i
        = (match i.Instance with
           | .error _ => ([], i)
           | .ok ((e, _), i') =>
             (e :: (Instancer.instanceRun n i').1, (Instancer.instanceRun n i').2)) := rfl
    rw [hunf, Instance_eq i h1 h2 h3]
    dsimp only
    by_cases hc : i.counter + 1 < u64
    · have hc' : (i.counter + 1) % u64 = i.counter + 1 := Nat.mod_eq_of_lt hc
      rw [hc']
      have hrec := ih { i with counter := i.counter + 1 } h1 h2 hc (by dsimp only; omega)
      dsimp only at hrec
      rw [hrec]
      have harith : ∀ k : Nat, i.counter + 1 + k = i.counter + (k + 1) := by
        intro k; omega
      have harith2 : i.counter + 1 + n = i.counter + (n + 1) := by omega
      rw [List.range_succ_eq_map, List.map_cons, List.map_map]
      simp only [Nat.add_zero, Function.comp_def, Nat.succ_eq_add_one, harith, harith2]
    · have hceq : i.counter + 1 = u64 := by omega
      have hn : n = 0 := by omega
      subst hn
      dsimp only [Instancer.instanceRun]
      rw [show List.range 1 = [0] from rfl]
      simp

/-- Claim C2: on a non-stopped state, selecting against an empty snapshot
returns `("", false)` with the state untouched (no indexing happens), and on
a non-empty snapshot of length `L` the computed index `counter % L` is
strictly below `L`, so the selection indexes in range and succeeds. -/
theorem instance_empty_safe (i : Instancer) (h1 : i.stopped = false) (h3 : i.counter < u64) :
    (i.instances.length = 0 → i.Instance = .ok (("", false), i))
    ∧ (0 < i.instances.length →
        i.counter % i.instances.length < i.instances.length
        ∧ i.Instance = .ok ((i.instances.getD (i.counter % i.instances.length) "", true),
                            { i with counter := (i.counter + 1) % u64 })) := by
  constructor
  · intro h2; exact Instance_empty i h1 h2
  · intro hpos
    exact ⟨Nat.mod_lt _ hpos, Instance_eq i h1 (by omega) h3⟩

/-- Witness for C2: the empty-snapshot state satisfies the hypotheses and
selection on it returns the not-found pair. -/
theorem instance_empty_safe_witness :
    emptyInst.stopped = false ∧ emptyInst.counter < u64
    ∧ emptyInst.Instance = .ok (("", false), emptyInst) :=
  ⟨rfl, by decide, (instance_empty_safe emptyInst rfl (by decide)).1 rfl⟩

/-- Claim C9, amended: every selection request against a non-empty snapshot
increments the cursor exactly once (modulo `2 ^ 64`); a request against an
empty snapshot returns early and leaves the cursor unchanged. -/
theorem selection_counter_increment (i : Instancer) (h1 : i.stopped = false)
    (h3 : i.counter < u64) :
    (0 < i.instances.length →
        i.Instance = .ok ((i.instances.getD (i.counter % i.instances.length) "", true),
                          { i with counter := (i.counter + 1) % u64 }))
    ∧ (i.instances.length = 0 → i.Instance = .ok (("", false), i)) :=
  ⟨fun _ => Instance_eq i h1 (by omega) h3, fun h2 => Instance_empty i h1 h2⟩

/-- Witness for C9: a one-instance state satisfies the hypotheses and a
selection increments the cursor from 0 to 1. -/
theorem selection_counter_increment_witness :
    oneInst.stopped = false ∧ oneInst.counter < u64
    ∧ oneInst.Instance
        = .ok ((oneInst.instances.getD (oneInst.counter % oneInst.instances.length) "", true),
               { oneInst with counter := (oneInst.counter + 1) % u64 }) :=
  ⟨rfl, by decide, (selection_counter_increment oneInst rfl (by decide)).1 (by decide)⟩

/-- Counterexample for C9 as stated: a selection request made while the
snapshot is empty leaves the state — in particular the cursor, still 0 —
completely unchanged, so the cursor is not incremented on every request. -/
theorem selection_counter_increment_cex :
    emptyInst.Instance = .ok (("", false), emptyInst)
    ∧ emptyInst.counter = 0 ∧ (0 : Nat) + 1 ≠ 0 :=
  ⟨rfl, rfl, by decide⟩

/-- Claim C1, amended: against a stable snapshot of `N ≥ 1` endpoints and a
cursor `c` whose `N` increments stay within uint64 range (`c + N ≤ 2 ^ 64`),
`N` consecutive selections return the endpoints at indices
`(c + k) % N` for `k = 0, …, N - 1` — cyclic order starting at the cursor —
and the returned list is a permutation of the snapshot, i.e. each endpoint
is returned exactly once. -/
theorem instance_round_robin (i : Instancer) (N : Nat) (h1 : i.stopped = false)
    (hN : i.instances.length = N) (hpos : 0 < N) (h3 : i.counter < u64)
    (h4 : i.counter + N ≤ u64) :
    (Instancer.instanceRun N i).1
      = (List.range N).map (fun k => i.instances.getD ((i.counter + k) % N) "")
    ∧ (Instancer.instanceRun N i).1.Perm i.instances := by
  subst hN
  have h2 : i.instances.length ≠ 0 := by omega
  have hrun := instanceRun_stable i.instances.length i h1 h2 h3 h4
  rw [hrun]
  exact ⟨rfl, run_perm i.instances i.counter⟩

/-- Witness for C1: three instances with the cursor at 4 satisfy the
hypotheses and three selections return a permutation of the snapshot. -/
theorem instance_round_robin_witness :
    threeInst.stopped = false ∧ threeInst.instances.length = 3 ∧ 0 < 3
    ∧ threeInst.counter < u64 ∧ threeInst.counter + 3 ≤ u64
    ∧ (Instancer.instanceRun 3 threeInst).1.Perm threeInst.instances :=
  ⟨rfl, rfl, by decide, by decide, by decide,
   (instance_round_robin threeInst 3 rfl rfl (by decide) (by decide) (by decide)).2⟩

/-- Counterexample for C1 as stated: with the cursor at `2 ^ 64 - 1` and
three distinct endpoints, the uint64 counter wraps during the window and the
three consecutive selections return `["a", "a", "b"]` — endpoint `"a"`
twice and `"c"` never, not each endpoint exactly once. -/
theorem instance_round_robin_cex :
    wrapInst.stopped = false ∧ wrapInst.instances = ["a", "b", "c"]
    ∧ wrapInst.instances.Nodup
    ∧ (Instancer.instanceRun 3 wrapInst).1 = ["a", "a", "b"]
    ∧ ¬ (Instancer.instanceRun 3 wrapInst).1.Perm wrapInst.instances :=
  ⟨rfl, rfl, by decide, by decide, by decide⟩

/-- Claim C3: a well-formed descriptor batch replaces the snapshot with the
batch mapped element-by-element in delivered order, each descriptor mapping
to `address:port` with the service-level address preferred when non-empty
and the node-level address otherwise; in particular the spec's example batch
produces `["10.0.0.1:8080", "10.0.0.9:9090"]`. -/
theorem handler_snapshot_mapping (i : Instancer) (d : List ServiceEntry) :
    (i.handler (HandlerData.serviceEntries d)).1.instances = d.map specEndpoint
    ∧ (initialInstancer.handler (HandlerData.serviceEntries
         [⟨⟨"10.0.0.1"⟩, ⟨"", 8080⟩⟩, ⟨⟨"10.0.0.2"⟩, ⟨"10.0.0.9", 9090⟩⟩])).1.instances
       = ["10.0.0.1:8080", "10.0.0.9:9090"] := by
  constructor
  · rw [handler_entries_eq]
    have hfun : endpointOf = specEndpoint := funext endpointOf_eq_spec
    rw [hfun]
  · decide

/-- Claim C4: a change payload of any unexpected type leaves the whole state
— snapshot, listener set and cursor — unchanged and produces no
notification (the code only logs). -/
theorem handler_malformed_noop (i : Instancer) (t : String) :
    i.handler (HandlerData.unexpected t) = (i, [])
    ∧ (i.handler (HandlerData.unexpected t)).1.instances = i.instances
    ∧ (i.handler (HandlerData.unexpected t)).1.listeners = i.listeners
    ∧ (i.handler (HandlerData.unexpected t)).1.counter = i.counter :=
  ⟨rfl, rfl, rfl, rfl⟩

/-- Claim C5: once the watch plan reports stopped — which is what `Close`
establishes — `Instance`, `Instances` and `RegisterListener` all panic with
the closed message instead of returning data or mutating state. -/
theorem closed_operations_panic (i : Instancer) (l : Nat) (h : i.stopped = true) :
    i.Instance = .error closedMsg ∧ i.Instances = .error closedMsg
    ∧ i.RegisterListener l = .error closedMsg
    ∧ (Instancer.Close i).stopped = true := by
  refine ⟨?_, ?_, ?_, rfl⟩
  · simp [Instancer.Instance, h]
  · simp [Instancer.Instances, h]
  · simp [Instancer.RegisterListener, h]

/-- Witness for C5: a freshly closed Instancer satisfies the hypothesis and
all three operations panic on it. -/
theorem closed_operations_panic_witness :
    (initialInstancer.Close).stopped = true
    ∧ (initialInstancer.Close).Instance = .error closedMsg
    ∧ (initialInstancer.Close).Instances = .error closedMsg
    ∧ (initialInstancer.Close).RegisterListener 0 = .error closedMsg :=
  ⟨rfl, (closed_operations_panic initialInstancer.Close 0 rfl).1,
   (closed_operations_panic initialInstancer.Close 0 rfl).2.1,
   (closed_operations_panic initialInstancer.Close 0 rfl).2.2.1⟩

/-- Claim C6: on a non-stopped state, `RegisterListener` appends the new
listener at the end (no deduplication) and synchronously notifies exactly
that listener, once, with the current snapshot; after `K` change events the
current snapshot is the `K`-th (latest) batch mapped to endpoints, and the
empty list when no event has fired yet (`getLastD` of the mapped batches
with default `[]`). -/
theorem registerListener_sync_notify (i : Instancer) (l : Nat)
    (ds : List (List ServiceEntry)) (h : i.stopped = false) :
    i.RegisterListener l
      = .ok ({ i with listeners := i.listeners ++ [l] }, [⟨l, i.instances⟩])
    ∧ (initialInstancer.runEvents (ds.map HandlerData.serviceEntries)).instances
        = (ds.map (fun d => d.map specEndpoint)).getLastD []
    ∧ (initialInstancer.runEvents (ds.map HandlerData.serviceEntries)).stopped = false := by
  have hfun : endpointOf = specEndpoint := funext endpointOf_eq_spec
  refine ⟨?_, ?_, ?_⟩
  · simp [Instancer.RegisterListener, h]
  · rw [runEvents_entries, hfun]; rfl
  · rw [runEvents_entries]; rfl

/-- Witness for C6: registering listener 0 on the freshly constructed state
appends it and notifies it once with the empty snapshot. -/
theorem registerListener_sync_notify_witness :
    initialInstancer.stopped = false
    ∧ initialInstancer.RegisterListener 0
        = .ok ({ initialInstancer with listeners := initialInstancer.listeners ++ [0] },
               [⟨0, initialInstancer.instances⟩]) :=
  ⟨rfl, (registerListener_sync_notify initialInstancer 0 [] rfl).1⟩

/-- Claim C7: a well-formed change event notifies the registered listeners
exactly in registration order — the emitted notifications project back to
the listener list itself, so each registration (including duplicates) is
invoked exactly once, every payload is the new snapshot, and an empty
listener set yields no notifications. -/
theorem handler_listener_fanout (i : Instancer) (d : List ServiceEntry) :
    (i.handler (HandlerData.serviceEntries d)).2
      = i.listeners.map
          (fun l => ⟨l, (i.handler (HandlerData.serviceEntries d)).1.instances⟩)
    ∧ (i.handler (HandlerData.serviceEntries d)).2.map Notification.listener
        = i.listeners := by
  rw [handler_entries_eq]
  refine ⟨rfl, ?_⟩
  rw [List.map_map]
  simp [Function.comp_def]

/-- Claim C8: `NewInstancer` panics on a nil client or a (trimmed) empty
service name, and when the watch-plan parameters fail to parse it returns no
Instancer, only an error string naming the service. -/
theorem newInstancer_error_discipline (config : InstancerConfig)
    (p : Except String Unit) (e : String) :
    (config.client = none →
       NewInstancer config p
         = .panics "cannot provide nil consul api.Client, illegal use of api")
    ∧ (config.client ≠ none → trimSpace config.service = "" →
       NewInstancer config p
         = .panics "a consul service must be specified to load balance/monitor, illegal use of api")
    ∧ (config.client ≠ none → trimSpace config.service ≠ "" → p = .error e →
       NewInstancer config p
         = .fails ("error creating watch plan for service " ++ config.service ++ ": " ++ e)) := by
  refine ⟨?_, ?_, ?_⟩
  · intro hnil
    simp [NewInstancer, InstancerConfig.validate, hnil]
  · intro hcl hsvc
    simp [NewInstancer, InstancerConfig.validate, hcl, hsvc]
  · intro hcl hsvc hp
    subst hp
    simp [NewInstancer, InstancerConfig.validate, hcl, hsvc]

/-- Witness for C8: a valid configuration whose watch-plan parse fails makes
the constructor return the descriptive error naming the service. -/
theorem newInstancer_error_discipline_witness :
    badParseConfig.client ≠ none ∧ trimSpace badParseConfig.service ≠ ""
    ∧ NewInstancer badParseConfig (.error "invalid params")
        = .fails ("error creating watch plan for service " ++ badParseConfig.service
                   ++ ": " ++ "invalid params") :=
  ⟨by decide, by decide,
   (newInstancer_error_discipline badParseConfig (.error "invalid params")
      "invalid params").2.2 (by decide) (by decide) rfl⟩

/-- Claim C10: a service name consisting only of whitespace characters is
trimmed to the empty string by `validate`, so `NewInstancer` panics on it
exactly as on the empty string and never yields a constructed Instancer. -/
theorem whitespace_service_name_panics (config : InstancerConfig)
    (p : Except String Unit) (h1 : config.client ≠ none)
    (h2 : ∀ c ∈ config.service.data, c.isWhitespace = true) :
    NewInstancer config p
      = .panics "a consul service must be specified to load balance/monitor, illegal use of api" := by
  have ht : trimSpace config.service = "" := by
    unfold trimSpace
    have hd : config.service.data.dropWhile Char.isWhitespace = [] :=
      List.dropWhile_eq_nil_iff.mpr h2
    rw [hd]
    rfl
  simp [NewInstancer, InstancerConfig.validate, h1, ht]

/-- Witness for C10: the single-space service name is non-empty, all of its
characters are whitespace, and the constructor panics on it. -/
theorem whitespace_service_name_panics_witness :
    wsConfig.client ≠ none ∧ wsConfig.service = " " ∧ wsConfig.service ≠ ""
    ∧ NewInstancer wsConfig (.ok ())
        = .panics "a consul service must be specified to load balance/monitor, illegal use of api" :=
  ⟨by decide, rfl, by decide,
   whitespace_service_name_panics wsConfig (.ok ()) (by decide) (by decide)⟩

end Konsul
